import Mathlib

/-
  Shallow embedding of the MusiMind native audio core
  (SoundFontEngine.cpp, OboePlayer.cpp / .h, native-audio.cpp).

  The TinySoundFont synthesis provider and the Oboe stream provider are
  external collaborators; they are modelled at their interface: a loaded
  bank is an opaque voice handle carrying the samples it would render, and
  every call the engine issues to the provider (tsf_set_output,
  tsf_note_on, tsf_note_off) is recorded in an explicit call trace.
  Samples are exact rationals in place of IEEE floats; the mixing
  arithmetic under verification is plain addition, which the rationals
  model faithfully.
-/

set_option autoImplicit false

/-- A loaded SoundFont bank instance (a tsf* handle). The `out` field is
the interleaved sample stream the provider would write for this voice on
the next render call (index i is the i-th float of the stereo-interleaved
buffer). -/
structure Voice where
  out : Nat → ℚ

/-- Which of the two tsf instances a provider call targets:
`m_tsf` (instrument) or `m_tsfMetronome` (click). -/
inductive VoiceId where
  | instrument
  | click

/-- One call issued to the TinySoundFont provider. -/
inductive TsfCall where
  | setOutput (v : VoiceId) (sampleRate : Int)
  | noteOn (v : VoiceId) (preset : Nat) (pitch : Int) (velocity : ℚ)
  | noteOff (v : VoiceId) (preset : Nat) (pitch : Int)

/-- MIDI note E5, the accented "tick" (METRONOME_NOTE_ACCENTED in
SoundFontEngine.cpp). -/
def METRONOME_NOTE_ACCENTED : Int := 76

/-- MIDI note F5, the non-accented "tack" (METRONOME_NOTE_NORMAL in
SoundFontEngine.cpp). -/
def METRONOME_NOTE_NORMAL : Int := 77

/-- State of SoundFontEngine: the two optional tsf handles and the
configured sample rate (SoundFontEngine.h private fields). -/
structure SoundFontEngine where
  m_tsf : Option Voice
  m_tsfMetronome : Option Voice
  m_sampleRate : Int

/-- A freshly constructed SoundFontEngine: no banks loaded, default
sample rate 44100 (field initializers in SoundFontEngine.h). -/
def SoundFontEngine.new : SoundFontEngine :=
  { m_tsf := none, m_tsfMetronome := none, m_sampleRate := 44100 }

/-- SoundFontEngine::initialize(assetManager, pianoSfPath, metronomeSfPath).
The outcome of loadSoundFont for each path is external input (asset bytes
and tsf parsing), passed here as `pianoLoad` / `clickLoad`. The body
first closes any existing instances, then loads the piano bank (failure
returns false), configures its output, then loads the metronome bank
(failure is tolerated), and returns true. -/
def SoundFontEngine.initialize (e : SoundFontEngine)
    (pianoLoad clickLoad : Option Voice) :
    Bool × SoundFontEngine × List TsfCall :=
  let e0 : SoundFontEngine := { e with m_tsf := none, m_tsfMetronome := none }
  match pianoLoad with
  | none => (false, e0, [])
  | some piano =>
      let e1 : SoundFontEngine := { e0 with m_tsf := some piano }
      let calls1 := [TsfCall.setOutput VoiceId.instrument e1.m_sampleRate]
      match clickLoad with
      | some click =>
          (true, { e1 with m_tsfMetronome := some click },
            calls1 ++ [TsfCall.setOutput VoiceId.click e1.m_sampleRate])
      | none => (true, e1, calls1)

/-- SoundFontEngine::setSampleRate: stores the rate and reconfigures the
output of each loaded tsf instance. Returns the new state and the
provider calls issued. -/
def SoundFontEngine.setSampleRate (e : SoundFontEngine) (sampleRate : Int) :
    SoundFontEngine × List TsfCall :=
  ({ e with m_sampleRate := sampleRate },
    (if e.m_tsf.isSome then [TsfCall.setOutput VoiceId.instrument sampleRate]
     else []) ++
    (if e.m_tsfMetronome.isSome then [TsfCall.setOutput VoiceId.click sampleRate]
     else []))

/-- SoundFontEngine::noteOn: if the piano bank is loaded, issues
tsf_note_on(m_tsf, 0, midiNote, velocity) — always preset 0; otherwise
does nothing. The channel argument is ignored by the body. -/
def SoundFontEngine.noteOn (e : SoundFontEngine) (channel : Int)
    (midiNote : Int) (velocity : ℚ) : List TsfCall :=
  match e.m_tsf with
  | some _ => [TsfCall.noteOn VoiceId.instrument 0 midiNote velocity]
  | none => []

/-- SoundFontEngine::noteOff: if the piano bank is loaded, issues
tsf_note_off(m_tsf, 0, midiNote). -/
def SoundFontEngine.noteOff (e : SoundFontEngine) (channel : Int)
    (midiNote : Int) : List TsfCall :=
  match e.m_tsf with
  | some _ => [TsfCall.noteOff VoiceId.instrument 0 midiNote]
  | none => []

/-- SoundFontEngine::setPreset: only logs; no state change and no
provider call. -/
def SoundFontEngine.setPreset (e : SoundFontEngine) (channel : Int)
    (preset : Int) : SoundFontEngine × List TsfCall :=
  (e, [])

/-- SoundFontEngine::playMetronomeClick: if the metronome bank is loaded,
turns off both fixed pitches (normal first, then accented) and turns on
the selected pitch with velocity 1.0 (accented) or 0.8 (normal); if the
bank is not loaded, only logs an error. -/
def SoundFontEngine.playMetronomeClick (e : SoundFontEngine)
    (isAccented : Bool) : List TsfCall :=
  match e.m_tsfMetronome with
  | some _ =>
      let note : Int :=
        if isAccented then METRONOME_NOTE_ACCENTED else METRONOME_NOTE_NORMAL
      let velocity : ℚ := if isAccented then 1 else 0.8
      [TsfCall.noteOff VoiceId.click 0 METRONOME_NOTE_NORMAL,
       TsfCall.noteOff VoiceId.click 0 METRONOME_NOTE_ACCENTED,
       TsfCall.noteOn VoiceId.click 0 note velocity]
  | none => []

/-- SoundFontEngine::isLoaded. -/
def SoundFontEngine.isLoaded (e : SoundFontEngine) : Bool :=
  e.m_tsf.isSome

/-- SoundFontEngine::isMetronomeLoaded. -/
def SoundFontEngine.isMetronomeLoaded (e : SoundFontEngine) : Bool :=
  e.m_tsfMetronome.isSome

/-- SoundFontEngine::render(output, numFrames): memsets the output buffer
to zero, lets the piano instance render numFrames frames directly into it
(tsf_render_float with mixing flag 0 replaces the buffer contents), then,
if the metronome instance is loaded, renders it into a scratch buffer of
numFrames * 2 floats and adds each scratch sample into the output. -/
def SoundFontEngine.render (e : SoundFontEngine) (numFrames : Nat) :
    List ℚ :=
  let output : List ℚ := List.replicate (numFrames * 2) 0
  let output : List ℚ :=
    match e.m_tsf with
    | some v => (List.range (numFrames * 2)).map v.out
    | none => output
  match e.m_tsfMetronome with
  | some v =>
      let metronomeBuffer : List ℚ := (List.range (numFrames * 2)).map v.out
      List.zipWith (fun a b => a + b) output metronomeBuffer
  | none => output

/-- The note-state a voice accumulates from a trace of provider calls:
a note-on makes its pitch sounding on its target voice, a note-off ends
it. Only click-voice events are tracked here (used for the metronome
retrigger property). -/
def applyCall (s : Int → Bool) : TsfCall → (Int → Bool)
  | TsfCall.noteOn VoiceId.click _ pitch _ =>
      fun q => if q = pitch then true else s q
  | TsfCall.noteOff VoiceId.click _ pitch =>
      fun q => if q = pitch then false else s q
  | _ => s

/-- Fold a whole call trace over a sounding-pitch state. -/
def applyCalls (calls : List TsfCall) (s : Int → Bool) : Int → Bool :=
  calls.foldl applyCall s

/-- An opened Oboe stream handle, as configured by OboePlayer::start's
AudioStreamBuilder: the device-negotiated sample rate, and the data and
error callbacks attached by setDataCallback(this) / setErrorCallback(this)
(the data callback is the render mixer). -/
structure StreamHandle where
  sampleRate : Int
  dataCallbackAttached : Bool
  errorCallbackAttached : Bool

/-- The device-side outcomes external to OboePlayer::start: whether
builder.openStream succeeds, the sample rate the device negotiates for an
opened stream, and whether requestStart succeeds. -/
structure StreamEnv where
  openSucceeds : Bool
  negotiatedRate : Int
  requestStartSucceeds : Bool

/-- Observable actions performed by OboePlayer on the stream provider and
its engine, plus markers for the internal stop()/start() method calls
made from reopenStream. failureReported stands for the LOGE error report
on a failed open or requestStart. -/
inductive PlayerAction where
  | stopCalled
  | startCalled
  | streamOpened (negotiatedRate : Int)
  | engineRateSet (rate : Int)
  | streamStartRequested
  | streamStopRequested
  | streamClosed
  | failureReported

/-- State of OboePlayer (OboePlayer.h private fields). -/
structure OboePlayer where
  m_stream : Option StreamHandle
  m_engine : SoundFontEngine
  m_sampleRate : Int
  m_channelCount : Int
  m_isRunning : Bool

/-- A freshly constructed OboePlayer: no stream, default rate 48000,
stereo, not running, engine freshly constructed. -/
def OboePlayer.new : OboePlayer :=
  { m_stream := none, m_engine := SoundFontEngine.new,
    m_sampleRate := 48000, m_channelCount := 2, m_isRunning := false }

/-- OboePlayer::start(): early-returns true if already running;
otherwise opens a stream with the callbacks attached (on failure the
shared_ptr is left reset and false is returned), reads back the
negotiated sample rate into m_sampleRate, propagates it to the engine via
setSampleRate, then requests the stream to start (on failure the opened
handle is closed and released and false is returned); on success sets
m_isRunning. Returns (result, new state, action trace). -/
def OboePlayer.start (env : StreamEnv) (p : OboePlayer) :
    Bool × OboePlayer × List PlayerAction :=
  if p.m_isRunning then (true, p, [])
  else if env.openSucceeds then
    let h : StreamHandle :=
      { sampleRate := env.negotiatedRate, dataCallbackAttached := true,
        errorCallbackAttached := true }
    let engineAfter :=
      (SoundFontEngine.setSampleRate p.m_engine env.negotiatedRate).1
    let p1 : OboePlayer :=
      { p with m_stream := some h, m_sampleRate := env.negotiatedRate,
               m_engine := engineAfter }
    if env.requestStartSucceeds then
      (true, { p1 with m_isRunning := true },
        [PlayerAction.streamOpened env.negotiatedRate,
         PlayerAction.engineRateSet env.negotiatedRate,
         PlayerAction.streamStartRequested])
    else
      (false, { p1 with m_stream := none },
        [PlayerAction.streamOpened env.negotiatedRate,
         PlayerAction.engineRateSet env.negotiatedRate,
         PlayerAction.streamStartRequested,
         PlayerAction.failureReported,
         PlayerAction.streamClosed])
  else
    (false, { p with m_stream := none }, [PlayerAction.failureReported])

/-- OboePlayer::stop(): if a stream handle is held, requests it to stop,
closes it and resets the pointer; always clears m_isRunning. -/
def OboePlayer.stop (p : OboePlayer) : OboePlayer × List PlayerAction :=
  match p.m_stream with
  | some _ =>
      ({ p with m_stream := none, m_isRunning := false },
        [PlayerAction.streamStopRequested, PlayerAction.streamClosed])
  | none => ({ p with m_isRunning := false }, [])

/-- OboePlayer::reopenStream(): calls stop() then start(); the Bool
result of start() is discarded (the void method only logs). -/
def OboePlayer.reopenStream (env : StreamEnv) (p : OboePlayer) :
    OboePlayer × List PlayerAction :=
  let r1 := OboePlayer.stop p
  let r2 := OboePlayer.start env r1.1
  (r2.2.1,
    (PlayerAction.stopCalled :: r1.2) ++ (PlayerAction.startCalled :: r2.2.2))

/-- OboePlayer::onErrorAfterClose(stream, error): logs the error and, if
the player believed itself running, attempts one reopenStream(); if not
running, does nothing. -/
def OboePlayer.onErrorAfterClose (env : StreamEnv) (p : OboePlayer) :
    OboePlayer × List PlayerAction :=
  if p.m_isRunning then OboePlayer.reopenStream env p else (p, [])

/-
  System-level model for the stream-lifecycle invariant: the player state
  together with ghost accounting of the device-side stream handles.
  heldOpen records whether the handle currently referenced by m_stream
  (if any) is still open at the device; openHandles counts the device's
  currently open stream handles (incremented by a successful open,
  decremented when an open handle is closed, by the player or — before an
  error callback — unilaterally by the provider).
-/

/-- Player state plus ghost device-side stream-handle accounting. -/
structure SysState where
  player : OboePlayer
  heldOpen : Bool
  openHandles : Nat

/-- Initial system: fresh player, no open device handles. -/
def initSys : SysState :=
  { player := OboePlayer.new, heldOpen := false, openHandles := 0 }

/-- Effect of OboePlayer::start() on the system: the player transitions
per OboePlayer.start; the device accounting mirrors the calls the body
makes (one open when openStream succeeds, one close when requestStart
then fails). -/
def startSys (env : StreamEnv) (s : SysState) : SysState :=
  { player := (OboePlayer.start env s.player).2.1,
    heldOpen :=
      if s.player.m_isRunning then s.heldOpen
      else if env.openSucceeds then env.requestStartSucceeds
      else s.heldOpen,
    openHandles :=
      if s.player.m_isRunning then s.openHandles
      else if env.openSucceeds then
        if env.requestStartSucceeds then s.openHandles + 1
        else s.openHandles + 1 - 1
      else s.openHandles }

/-- Effect of OboePlayer::stop() on the system: the player transitions
per OboePlayer.stop; if a handle is held and still open at the device,
the close performed by the body closes it (closing an already-closed
handle is a provider no-op). -/
def stopSys (s : SysState) : SysState :=
  { player := (OboePlayer.stop s.player).1,
    heldOpen := if s.player.m_stream.isSome then false else s.heldOpen,
    openHandles :=
      if s.player.m_stream.isSome && s.heldOpen then s.openHandles - 1
      else s.openHandles }

/-- Effect of a terminal stream error: the provider unilaterally closes
the failed handle before delivering onErrorAfterClose, which then runs
stop() followed by start() when the player believed itself running. -/
def errorSys (env : StreamEnv) (s : SysState) : SysState :=
  let s1 : SysState :=
    { s with heldOpen := false,
             openHandles :=
               if s.player.m_stream.isSome && s.heldOpen then
                 s.openHandles - 1
               else s.openHandles }
  if s1.player.m_isRunning then startSys env (stopSys s1) else s1

/-- States reachable from the initial system by any sequence of start(),
stop() and error-delivery operations, each under an arbitrary device
environment; an error can only be delivered for a stream that is held
and still open. -/
inductive Reachable : SysState → Prop where
  | init : Reachable initSys
  | start (env : StreamEnv) (s : SysState) :
      Reachable s → Reachable (startSys env s)
  | stop (s : SysState) : Reachable s → Reachable (stopSys s)
  | error (env : StreamEnv) (s : SysState) :
      Reachable s → s.heldOpen = true → Reachable (errorSys env s)

/-- The inductive invariant of the stream lifecycle: the held handle,
the running flag and the device-open accounting agree, and while running
the handle carries the negotiated rate that both m_sampleRate and the
engine were set to. -/
def FullInv (s : SysState) : Prop :=
  s.player.m_stream.isSome = s.player.m_isRunning ∧
  s.heldOpen = s.player.m_isRunning ∧
  s.openHandles = (if s.heldOpen then 1 else 0) ∧
  (s.player.m_isRunning = true →
    ∃ hdl, s.player.m_stream = some hdl ∧
      hdl.dataCallbackAttached = true ∧
      s.player.m_sampleRate = hdl.sampleRate ∧
      s.player.m_engine.m_sampleRate = hdl.sampleRate)

/-
  JNI control-surface bridge (native-audio.cpp). The global player is
  g_player, a possibly-null unique_ptr; every entry point checks it
  before use.
-/

/-- nativeNoteOn: forwards to the engine when g_player is non-null. -/
def nativeNoteOn (g : Option OboePlayer) (channel midiNote : Int)
    (velocity : ℚ) : Option OboePlayer × List TsfCall :=
  match g with
  | some pl => (some pl, SoundFontEngine.noteOn pl.m_engine channel midiNote velocity)
  | none => (none, [])

/-- nativeNoteOff: forwards to the engine when g_player is non-null. -/
def nativeNoteOff (g : Option OboePlayer) (channel midiNote : Int) :
    Option OboePlayer × List TsfCall :=
  match g with
  | some pl => (some pl, SoundFontEngine.noteOff pl.m_engine channel midiNote)
  | none => (none, [])

/-- nativePlayMetronome: forwards to the engine when g_player is
non-null. -/
def nativePlayMetronome (g : Option OboePlayer) (isAccented : Bool) :
    Option OboePlayer × List TsfCall :=
  match g with
  | some pl => (some pl, SoundFontEngine.playMetronomeClick pl.m_engine isAccented)
  | none => (none, [])

/-- nativeSetPreset: forwards to the engine when g_player is non-null. -/
def nativeSetPreset (g : Option OboePlayer) (channel preset : Int) :
    Option OboePlayer × List TsfCall :=
  match g with
  | some pl =>
      (some { pl with m_engine := (SoundFontEngine.setPreset pl.m_engine channel preset).1 },
        (SoundFontEngine.setPreset pl.m_engine channel preset).2)
  | none => (none, [])

/-- nativeIsReady: g_player non-null and its engine's piano bank
loaded. -/
def nativeIsReady (g : Option OboePlayer) : Bool :=
  match g with
  | some pl => SoundFontEngine.isLoaded pl.m_engine
  | none => false

/-- nativeGetSampleRate: the player's sample rate, or 44100 when
g_player is null. -/
def nativeGetSampleRate (g : Option OboePlayer) : Int :=
  match g with
  | some pl => pl.m_sampleRate
  | none => 44100

/-
  Concrete sample objects used by the witness theorems.
-/

/-- A concrete loaded voice rendering silence. -/
def sampleVoice : Voice := { out := fun _ => 0 }

/-- A concrete engine with both banks loaded. -/
def engineLoaded : SoundFontEngine :=
  { m_tsf := some sampleVoice, m_tsfMetronome := some sampleVoice,
    m_sampleRate := 48000 }

/-- A concrete engine with only the piano bank loaded. -/
def engineInstOnly : SoundFontEngine :=
  { m_tsf := some sampleVoice, m_tsfMetronome := none,
    m_sampleRate := 44100 }

/-- A concrete open stream handle negotiated at 48000. -/
def handle48k : StreamHandle :=
  { sampleRate := 48000, dataCallbackAttached := true,
    errorCallbackAttached := true }

/-- A concrete running player holding handle48k. -/
def playerRunning : OboePlayer :=
  { m_stream := some handle48k, m_engine := engineLoaded,
    m_sampleRate := 48000, m_channelCount := 2, m_isRunning := true }

/-- A concrete device environment where open and start both succeed at
rate 44100. -/
def envOK : StreamEnv :=
  { openSucceeds := true, negotiatedRate := 44100,
    requestStartSucceeds := true }

/-- A concrete device environment where opening the stream fails. -/
def envOpenFail : StreamEnv :=
  { openSucceeds := false, negotiatedRate := 44100,
    requestStartSucceeds := true }

/-
  Claim theorems.
-/

/-- Claim C1: for every frameCount > 0, render produces exactly
frameCount * 2 samples; each output sample is the instrument sample (when
that voice is loaded) plus the click scratch-buffer sample (when that
voice is loaded), with no clipping or limiting; with both voices unloaded
the output is exactly all zeros. -/
theorem render_mix_spec (e : SoundFontEngine) (numFrames : Nat)
    (hn : 0 < numFrames) :
    (SoundFontEngine.render e numFrames).length = numFrames * 2 ∧
    (∀ i, i < numFrames * 2 →
      (SoundFontEngine.render e numFrames).getD i 0 =
        (match e.m_tsf with | some v => v.out i | none => 0) +
        (match e.m_tsfMetronome with | some v => v.out i | none => 0)) ∧
    (e.m_tsf = none → e.m_tsfMetronome = none →
      SoundFontEngine.render e numFrames = List.replicate (numFrames * 2) 0) := by
  refine ⟨?_, ?_, ?_⟩
  · cases h1 : e.m_tsf <;> cases h2 : e.m_tsfMetronome <;>
      simp [SoundFontEngine.render, h1, h2]
  · intro i hi
    cases h1 : e.m_tsf with
    | none =>
      cases h2 : e.m_tsfMetronome with
      | none =>
        have hl : i < (List.replicate (numFrames * 2) (0 : ℚ)).length := by
          simp [hi]
        simp only [SoundFontEngine.render, h1, h2]
        rw [List.getD_eq_getElem _ _ hl]
        simp
      | some w =>
        have hl : i < (List.zipWith (fun a b => a + b)
            (List.replicate (numFrames * 2) (0 : ℚ))
            ((List.range (numFrames * 2)).map w.out)).length := by
          simp [hi]
        simp only [SoundFontEngine.render, h1, h2]
        rw [List.getD_eq_getElem _ _ hl]
        rw [List.getElem_zipWith]
        simp
    | some v =>
      cases h2 : e.m_tsfMetronome with
      | none =>
        have hl : i < ((List.range (numFrames * 2)).map v.out).length := by
          simp [hi]
        simp only [SoundFontEngine.render, h1, h2]
        rw [List.getD_eq_getElem _ _ hl]
        simp
      | some w =>
        have hl : i < (List.zipWith (fun a b => a + b)
            ((List.range (numFrames * 2)).map v.out)
            ((List.range (numFrames * 2)).map w.out)).length := by
          simp [hi]
        simp only [SoundFontEngine.render, h1, h2]
        rw [List.getD_eq_getElem _ _ hl]
        rw [List.getElem_zipWith]
        simp
  · intro hA hB
    simp [SoundFontEngine.render, hA, hB]

/-- Witness for C1: at frameCount 3 with a freshly constructed engine
(both voices unloaded) the rendered buffer is exactly six zeros. -/
theorem render_mix_spec_witness :
    0 < 3 ∧
    SoundFontEngine.render SoundFontEngine.new 3 = List.replicate (3 * 2) 0 :=
  ⟨by decide, (render_mix_spec SoundFontEngine.new 3 (by decide)).2.2 rfl rfl⟩

/-- Claim C2: with the click voice loaded, triggerClick issues a note-off
for the normal pitch, then a note-off for the accented pitch, then a
note-on for the selected pitch (accented at velocity 1.0, normal at
velocity 0.8); consequently an accented click followed by a normal click
never leaves the accented pitch sounding. -/
theorem triggerClick_spec (e : SoundFontEngine) (acc : Bool)
    (h : e.m_tsfMetronome.isSome = true) :
    SoundFontEngine.playMetronomeClick e acc =
      [TsfCall.noteOff VoiceId.click 0 METRONOME_NOTE_NORMAL,
       TsfCall.noteOff VoiceId.click 0 METRONOME_NOTE_ACCENTED,
       TsfCall.noteOn VoiceId.click 0
         (if acc then METRONOME_NOTE_ACCENTED else METRONOME_NOTE_NORMAL)
         (if acc then 1 else 0.8)] ∧
    (∀ s : Int → Bool,
      applyCalls (SoundFontEngine.playMetronomeClick e true ++
          SoundFontEngine.playMetronomeClick e false) s METRONOME_NOTE_ACCENTED
        = false) := by
  cases h2 : e.m_tsfMetronome with
  | none => rw [h2] at h; simp at h
  | some w =>
    constructor
    · simp [SoundFontEngine.playMetronomeClick, h2]
    · intro s
      simp [SoundFontEngine.playMetronomeClick, h2, applyCalls, applyCall,
        METRONOME_NOTE_ACCENTED, METRONOME_NOTE_NORMAL]

/-- Witness for C2: on a concrete engine with the click voice loaded,
after an accented click followed by a normal click the accented pitch is
not sounding, even from a state where every pitch was sounding. -/
theorem triggerClick_spec_witness :
    engineLoaded.m_tsfMetronome.isSome = true ∧
    applyCalls (SoundFontEngine.playMetronomeClick engineLoaded true ++
        SoundFontEngine.playMetronomeClick engineLoaded false)
      (fun _ => true) METRONOME_NOTE_ACCENTED = false :=
  ⟨rfl, (triggerClick_spec engineLoaded true rfl).2 (fun _ => true)⟩

/-- Claim C3: if the instrument bank fails to load, initialize returns
false and the engine holds no voice handles; if the instrument bank loads
but the click bank fails, initialize returns true, isReady on the bridge
is true, the click voice stays unloaded, and triggerClick issues no note
events. -/
theorem initialize_partial_failure (e : SoundFontEngine)
    (pianoLoad clickLoad : Option Voice) :
    (pianoLoad = none →
      ( SoundFontEngine.initialize e pianoLoad clickLoad).1 = false ∧
      ( SoundFontEngine.initialize e pianoLoad clickLoad).2.1.m_tsf = none ∧
      ( SoundFontEngine.initialize e pianoLoad clickLoad).2.1.m_tsfMetronome = none) ∧
    (∀ piano, pianoLoad = some piano → clickLoad = none →
      ( SoundFontEngine.initialize e pianoLoad clickLoad).1 = true ∧
      nativeIsReady (some { OboePlayer.new with
        m_engine := ( SoundFontEngine.initialize e pianoLoad clickLoad).2.1 }) = true ∧
      ( SoundFontEngine.initialize e pianoLoad clickLoad).2.1.m_tsfMetronome = none ∧
      (∀ acc, SoundFontEngine.playMetronomeClick
        ( SoundFontEngine.initialize e pianoLoad clickLoad).2.1 acc = [])) := by
  constructor
  · intro hp
    simp [ SoundFontEngine.initialize, hp]
  · intro piano hp hc
    subst hp; subst hc
    refine ⟨rfl, ?_, rfl, ?_⟩
    · simp [nativeIsReady, SoundFontEngine.isLoaded, SoundFontEngine.initialize]
    · intro acc
      simp [SoundFontEngine.playMetronomeClick, SoundFontEngine.initialize]

/-- Witness for C3: concrete runs of initialize, one with a missing
instrument bank and one with a loaded instrument bank and a missing click
bank. -/
theorem initialize_partial_failure_witness :
    ( SoundFontEngine.initialize SoundFontEngine.new none (some sampleVoice)).1 = false ∧
    ( SoundFontEngine.initialize SoundFontEngine.new (some sampleVoice) none).1 = true ∧
    SoundFontEngine.playMetronomeClick
      ( SoundFontEngine.initialize SoundFontEngine.new (some sampleVoice) none).2.1 true = [] :=
  ⟨((initialize_partial_failure SoundFontEngine.new none (some sampleVoice)).1 rfl).1,
   ((initialize_partial_failure SoundFontEngine.new (some sampleVoice) none).2
      sampleVoice rfl rfl).1,
   (((initialize_partial_failure SoundFontEngine.new (some sampleVoice) none).2
      sampleVoice rfl rfl).2.2.2) true⟩

/-- Claim C9: noteOn always triggers its note on preset 0 of the
instrument voice, and setPreset changes no engine state and issues no
provider call, so noteOn behaves identically after any setPreset. -/
theorem noteOn_fixed_preset (e : SoundFontEngine) (channel midiNote : Int)
    (velocity : ℚ) (c2 p2 : Int) (h : e.m_tsf.isSome = true) :
    SoundFontEngine.noteOn e channel midiNote velocity =
      [TsfCall.noteOn VoiceId.instrument 0 midiNote velocity] ∧
    SoundFontEngine.setPreset e c2 p2 = (e, []) ∧
    SoundFontEngine.noteOn (SoundFontEngine.setPreset e c2 p2).1
        channel midiNote velocity =
      SoundFontEngine.noteOn e channel midiNote velocity := by
  refine ⟨?_, rfl, rfl⟩
  cases h1 : e.m_tsf with
  | none => rw [h1] at h; simp at h
  | some v => simp [SoundFontEngine.noteOn, h1]

/-- Witness for C9: a concrete noteOn on a loaded engine lands on
preset 0 regardless of a preceding setPreset request for preset 5. -/
theorem noteOn_fixed_preset_witness :
    engineInstOnly.m_tsf.isSome = true ∧
    SoundFontEngine.noteOn engineInstOnly 0 60 1 =
      [TsfCall.noteOn VoiceId.instrument 0 60 1] :=
  ⟨rfl, (noteOn_fixed_preset engineInstOnly 0 60 1 0 5 rfl).1⟩

/-- Claim C10: every JNI bridge entry point is safe when no engine
instance exists: noteOn, noteOff, playMetronome and setPreset are no-ops
issuing no provider calls, isReady returns false, and getSampleRate
returns the default 44100. -/
theorem bridge_null_engine_safe (channel midiNote : Int) (velocity : ℚ)
    (acc : Bool) (c p : Int) :
    nativeNoteOn none channel midiNote velocity = (none, []) ∧
    nativeNoteOff none channel midiNote = (none, []) ∧
    nativePlayMetronome none acc = (none, []) ∧
    nativeSetPreset none c p = (none, []) ∧
    nativeIsReady none = false ∧
    nativeGetSampleRate none = 44100 :=
  ⟨rfl, rfl, rfl, rfl, rfl, rfl⟩

/-- Counterexample to C7 as stated: on an engine with a loaded
instrument voice, two successive setSampleRate(48000) calls issue the
setOutput configuration call twice, which is not the same call sequence
as a single call issues. -/
theorem setSampleRate_twice_trace_ne :
    ¬ (((SoundFontEngine.setSampleRate engineInstOnly 48000).2 ++
        (SoundFontEngine.setSampleRate
          (SoundFontEngine.setSampleRate engineInstOnly 48000).1 48000).2 =
        (SoundFontEngine.setSampleRate engineInstOnly 48000).2) ∧
       (SoundFontEngine.setSampleRate
          (SoundFontEngine.setSampleRate engineInstOnly 48000).1 48000).1 =
        (SoundFontEngine.setSampleRate engineInstOnly 48000).1) := by
  intro hcontra
  have hlen := congrArg List.length hcontra.1
  simp [SoundFontEngine.setSampleRate, engineInstOnly] at hlen

/-- Claim C7 (amended): setSampleRate is idempotent on the engine state —
a second call with the same value leaves the state exactly as the first —
and the second call issues exactly the same configuration calls as the
first call (the duplicate calls are issued again, not suppressed). -/
theorem setSampleRate_idempotent_amended (e : SoundFontEngine) (rate : Int) :
    (SoundFontEngine.setSampleRate
        (SoundFontEngine.setSampleRate e rate).1 rate).1 =
      (SoundFontEngine.setSampleRate e rate).1 ∧
    (SoundFontEngine.setSampleRate
        (SoundFontEngine.setSampleRate e rate).1 rate).2 =
      (SoundFontEngine.setSampleRate e rate).2 :=
  ⟨rfl, rfl⟩

/-- Claim C8: stop is idempotent — when a handle is held it requests a
halt and releases it; in every case the player ends Stopped with no
handle; a second stop from the Stopped state changes nothing and touches
no stream. -/
theorem stop_idempotent_spec (p : OboePlayer) :
    (OboePlayer.stop p).1.m_isRunning = false ∧
    (OboePlayer.stop p).1.m_stream = none ∧
    OboePlayer.stop (OboePlayer.stop p).1 = ((OboePlayer.stop p).1, []) ∧
    (∀ hdl, p.m_stream = some hdl →
      (OboePlayer.stop p).2 =
        [PlayerAction.streamStopRequested, PlayerAction.streamClosed]) := by
  cases h : p.m_stream with
  | none =>
    refine ⟨by simp [OboePlayer.stop, h], by simp [OboePlayer.stop, h],
      by simp [OboePlayer.stop, h], ?_⟩
    intro hdl hcontra
    simp at hcontra
  | some hdl0 =>
    refine ⟨by simp [OboePlayer.stop, h], by simp [OboePlayer.stop, h],
      by simp [OboePlayer.stop, h], ?_⟩
    intro hdl heq
    simp [OboePlayer.stop, h]

/-- Witness for C8: stopping the concrete running player halts and
releases its stream, and a second stop is a strict no-op. -/
theorem stop_idempotent_spec_witness :
    (OboePlayer.stop playerRunning).1.m_isRunning = false ∧
    OboePlayer.stop (OboePlayer.stop playerRunning).1 =
      ((OboePlayer.stop playerRunning).1, []) ∧
    (OboePlayer.stop playerRunning).2 =
      [PlayerAction.streamStopRequested, PlayerAction.streamClosed] :=
  ⟨(stop_idempotent_spec playerRunning).1,
   (stop_idempotent_spec playerRunning).2.2.1,
   (stop_idempotent_spec playerRunning).2.2.2 handle48k rfl⟩

/-- Claim C5: start is a successful no-op when already running; on open
failure it reports failure and stays Stopped with no handle; on open
success it propagates the negotiated rate into the engine via
setSampleRate before requesting the stream to run; if that request fails
it closes and releases the opened handle, reports failure and stays
Stopped. -/
theorem start_lifecycle_spec (p : OboePlayer) (env : StreamEnv) :
    (p.m_isRunning = true → OboePlayer.start env p = (true, p, [])) ∧
    (p.m_isRunning = false → env.openSucceeds = false →
      OboePlayer.start env p =
        (false, { p with m_stream := none },
          [PlayerAction.failureReported]) ∧
      (OboePlayer.start env p).2.1.m_isRunning = false) ∧
    (p.m_isRunning = false → env.openSucceeds = true →
      env.requestStartSucceeds = true →
      (OboePlayer.start env p).1 = true ∧
      (OboePlayer.start env p).2.1.m_isRunning = true ∧
      (OboePlayer.start env p).2.1.m_sampleRate = env.negotiatedRate ∧
      (OboePlayer.start env p).2.1.m_engine.m_sampleRate = env.negotiatedRate ∧
      (OboePlayer.start env p).2.2 =
        [PlayerAction.streamOpened env.negotiatedRate,
         PlayerAction.engineRateSet env.negotiatedRate,
         PlayerAction.streamStartRequested]) ∧
    (p.m_isRunning = false → env.openSucceeds = true →
      env.requestStartSucceeds = false →
      (OboePlayer.start env p).1 = false ∧
      (OboePlayer.start env p).2.1.m_stream = none ∧
      (OboePlayer.start env p).2.1.m_isRunning = false ∧
      (OboePlayer.start env p).2.2 =
        [PlayerAction.streamOpened env.negotiatedRate,
         PlayerAction.engineRateSet env.negotiatedRate,
         PlayerAction.streamStartRequested,
         PlayerAction.failureReported,
         PlayerAction.streamClosed]) := by
  refine ⟨?_, ?_, ?_, ?_⟩
  · intro h1
    simp [OboePlayer.start, h1]
  · intro h1 h2
    simp [OboePlayer.start, h1, h2]
  · intro h1 h2 h3
    simp [OboePlayer.start, h1, h2, h3, SoundFontEngine.setSampleRate]
  · intro h1 h2 h3
    simp [OboePlayer.start, h1, h2, h3, SoundFontEngine.setSampleRate]

/-- Witness for C5: concrete start calls on the fresh player, one under
an environment where open and requestStart succeed at 44100, one where
the open fails. -/
theorem start_lifecycle_spec_witness :
    OboePlayer.new.m_isRunning = false ∧
    (OboePlayer.start envOK OboePlayer.new).1 = true ∧
    (OboePlayer.start envOK OboePlayer.new).2.1.m_engine.m_sampleRate = 44100 ∧
    OboePlayer.start envOpenFail OboePlayer.new =
      (false, { OboePlayer.new with m_stream := none },
        [PlayerAction.failureReported]) :=
  ⟨rfl,
   ((start_lifecycle_spec OboePlayer.new envOK).2.2.1 rfl rfl rfl).1,
   ((start_lifecycle_spec OboePlayer.new envOK).2.2.1 rfl rfl rfl).2.2.2.1,
   ((start_lifecycle_spec OboePlayer.new envOpenFail).2.1 rfl rfl).1⟩

/-- Helper: the trace of stop() contains neither internal call marker. -/
theorem stop_trace_no_markers (p : OboePlayer) :
    PlayerAction.stopCalled ∉ (OboePlayer.stop p).2 ∧
    PlayerAction.startCalled ∉ (OboePlayer.stop p).2 := by
  cases h : p.m_stream <;> simp [OboePlayer.stop, h]

/-- Helper: the trace of start() contains neither internal call
marker. -/
theorem start_trace_no_markers (env : StreamEnv) (p : OboePlayer) :
    PlayerAction.stopCalled ∉ (OboePlayer.start env p).2.2 ∧
    PlayerAction.startCalled ∉ (OboePlayer.start env p).2.2 := by
  by_cases h1 : p.m_isRunning <;> by_cases h2 : env.openSucceeds <;>
    by_cases h3 : env.requestStartSucceeds <;>
    simp [OboePlayer.start, h1, h2, h3]

/-- Helper: stop() never touches the engine and always clears the
running flag. -/
theorem stop_preserves_engine (p : OboePlayer) :
    (OboePlayer.stop p).1.m_engine = p.m_engine ∧
    (OboePlayer.stop p).1.m_isRunning = false := by
  cases h : p.m_stream <;> simp [OboePlayer.stop, h]

/-- Claim C4: a stream error while the player believed itself running
triggers exactly one stop() followed by exactly one start() (no retry
loop); on recovery success the player is running again with the
previously loaded voice handles unchanged (no bank reload); a recovery
failure is reported to the failure channel and leaves the player
stopped. An error while not running triggers no recovery at all. -/
theorem onError_single_recovery (p : OboePlayer) (env : StreamEnv) :
    (p.m_isRunning = true →
      (∃ t1 t2, (OboePlayer.onErrorAfterClose env p).2 =
          PlayerAction.stopCalled :: (t1 ++ PlayerAction.startCalled :: t2) ∧
          PlayerAction.stopCalled ∉ t1 ∧ PlayerAction.stopCalled ∉ t2 ∧
          PlayerAction.startCalled ∉ t1 ∧ PlayerAction.startCalled ∉ t2) ∧
      (env.openSucceeds = true → env.requestStartSucceeds = true →
        (OboePlayer.onErrorAfterClose env p).1.m_isRunning = true ∧
        (OboePlayer.onErrorAfterClose env p).1.m_engine.m_tsf =
          p.m_engine.m_tsf ∧
        (OboePlayer.onErrorAfterClose env p).1.m_engine.m_tsfMetronome =
          p.m_engine.m_tsfMetronome) ∧
      (env.openSucceeds = false ∨ env.requestStartSucceeds = false →
        (OboePlayer.onErrorAfterClose env p).1.m_isRunning = false ∧
        PlayerAction.failureReported ∈
          (OboePlayer.onErrorAfterClose env p).2)) ∧
    (p.m_isRunning = false →
      OboePlayer.onErrorAfterClose env p = (p, [])) := by
  constructor
  · intro hrun
    have htr : OboePlayer.onErrorAfterClose env p =
        ((OboePlayer.start env (OboePlayer.stop p).1).2.1,
          PlayerAction.stopCalled :: ((OboePlayer.stop p).2 ++
            PlayerAction.startCalled ::
              (OboePlayer.start env (OboePlayer.stop p).1).2.2)) := by
      simp [OboePlayer.onErrorAfterClose, OboePlayer.reopenStream, hrun]
    have hsr : (OboePlayer.stop p).1.m_isRunning = false :=
      (stop_preserves_engine p).2
    have heng : (OboePlayer.stop p).1.m_engine = p.m_engine :=
      (stop_preserves_engine p).1
    refine ⟨?_, ?_, ?_⟩
    · exact ⟨(OboePlayer.stop p).2,
        (OboePlayer.start env (OboePlayer.stop p).1).2.2,
        by rw [htr],
        (stop_trace_no_markers p).1,
        (start_trace_no_markers env (OboePlayer.stop p).1).1,
        (stop_trace_no_markers p).2,
        (start_trace_no_markers env (OboePlayer.stop p).1).2⟩
    · intro ho hr
      rw [htr]
      simp [OboePlayer.start, hsr, ho, hr, SoundFontEngine.setSampleRate, heng]
    · intro hfail
      rw [htr]
      rcases hfail with ho | hr
      · simp [OboePlayer.start, hsr, ho]
      · by_cases ho2 : env.openSucceeds <;>
          simp [OboePlayer.start, hsr, ho2, hr]
  · intro hrun
    simp [OboePlayer.onErrorAfterClose, hrun]

/-- Witness for C4: on the concrete running player under a succeeding
environment, recovery leaves the player running; on the fresh stopped
player the error callback does nothing. -/
theorem onError_single_recovery_witness :
    playerRunning.m_isRunning = true ∧
    (OboePlayer.onErrorAfterClose envOK playerRunning).1.m_isRunning = true ∧
    OboePlayer.onErrorAfterClose envOK OboePlayer.new =
      (OboePlayer.new, []) :=
  ⟨rfl,
   (((onError_single_recovery playerRunning envOK).1 rfl).2.1 rfl rfl).1,
   (onError_single_recovery OboePlayer.new envOK).2 rfl⟩

/-- Helper: the initial system satisfies the full stream-lifecycle
invariant. -/
theorem fullInv_init : FullInv initSys := by
  refine ⟨rfl, rfl, rfl, ?_⟩
  intro hrun
  simp [initSys, OboePlayer.new] at hrun

/-- Helper: startSys preserves the full stream-lifecycle invariant. -/
theorem fullInv_startSys (env : StreamEnv) (s : SysState) (h : FullInv s) :
    FullInv (startSys env s) := by
  obtain ⟨h1, h2, h3, h4⟩ := h
  by_cases hrun : s.player.m_isRunning = true
  · have hss : startSys env s = s := by
      cases s with
      | mk pl ho oh =>
        simp only [startSys, OboePlayer.start] at hrun ⊢
        simp [hrun]
    rw [hss]
    exact ⟨h1, h2, h3, h4⟩
  · rw [Bool.not_eq_true] at hrun
    by_cases hop : env.openSucceeds = true
    · by_cases hreq : env.requestStartSucceeds = true
      · refine ⟨?_, ?_, ?_, ?_⟩ <;>
          simp [startSys, OboePlayer.start, hrun, hop, hreq, h2, h3,
            SoundFontEngine.setSampleRate]
      · rw [Bool.not_eq_true] at hreq
        refine ⟨?_, ?_, ?_, ?_⟩ <;>
          simp [startSys, OboePlayer.start, hrun, hop, hreq, h2, h3,
            SoundFontEngine.setSampleRate]
    · rw [Bool.not_eq_true] at hop
      refine ⟨?_, ?_, ?_, ?_⟩ <;>
        simp [startSys, OboePlayer.start, hrun, hop, h1, h2, h3,
          SoundFontEngine.setSampleRate]

/-- Helper: stopSys preserves the full stream-lifecycle invariant. -/
theorem fullInv_stopSys (s : SysState) (h : FullInv s) :
    FullInv (stopSys s) := by
  obtain ⟨h1, h2, h3, h4⟩ := h
  cases hst : s.player.m_stream with
  | none =>
    have hrun : s.player.m_isRunning = false := by
      rw [← h1, hst]; rfl
    refine ⟨?_, ?_, ?_, ?_⟩ <;>
      simp [stopSys, OboePlayer.stop, hst, hrun, h2, h3]
  | some hdl =>
    have hrun : s.player.m_isRunning = true := by
      rw [← h1, hst]; rfl
    have hopn : s.heldOpen = true := by rw [h2, hrun]
    have hcount : s.openHandles = 1 := by rw [h3, hopn]; rfl
    refine ⟨?_, ?_, ?_, ?_⟩ <;>
      simp [stopSys, OboePlayer.stop, hst, hopn, hcount]

/-- Helper: error delivery (provider close plus one recovery attempt)
preserves the full stream-lifecycle invariant. -/
theorem fullInv_errorSys (env : StreamEnv) (s : SysState) (h : FullInv s)
    (hopn : s.heldOpen = true) : FullInv (errorSys env s) := by
  obtain ⟨h1, h2, h3, h4⟩ := h
  have hrun : s.player.m_isRunning = true := by rw [← h2]; exact hopn
  obtain ⟨hdl, hstream, hatt, hrate, herate⟩ := h4 hrun
  have hsome : s.player.m_stream.isSome = true := by rw [hstream]; rfl
  have hcount : s.openHandles = 1 := by rw [h3, hopn]; rfl
  have hs1 : errorSys env s = startSys env (stopSys
      { s with heldOpen := false, openHandles := s.openHandles - 1 }) := by
    simp [errorSys, hsome, hopn, hrun]
  rw [hs1]
  apply fullInv_startSys
  refine ⟨?_, ?_, ?_, ?_⟩ <;>
    simp [stopSys, OboePlayer.stop, hstream, hcount]

/-- Helper: every reachable system state satisfies the full
stream-lifecycle invariant. -/
theorem fullInv_reachable (s : SysState) (h : Reachable s) : FullInv s := by
  induction h with
  | init => exact fullInv_init
  | start env t ht ih => exact fullInv_startSys env t ih
  | stop t ht ih => exact fullInv_stopSys t ih
  | error env t ht hopn ih => exact fullInv_errorSys env t ih hopn

/-- Claim C6: in every state reachable by start, stop and error-recovery
operations, at most one stream handle is open, and while running the
player holds an open stream handle with the render mixer attached whose
negotiated rate equals both the player's and the engine's sample rate. -/
theorem stream_lifecycle_invariant (s : SysState) (h : Reachable s) :
    s.openHandles ≤ 1 ∧
    (s.player.m_isRunning = true →
      ∃ hdl, s.player.m_stream = some hdl ∧ s.heldOpen = true ∧
        hdl.dataCallbackAttached = true ∧
        s.player.m_sampleRate = hdl.sampleRate ∧
        s.player.m_engine.m_sampleRate = hdl.sampleRate) := by
  obtain ⟨h1, h2, h3, h4⟩ := fullInv_reachable s h
  constructor
  · rw [h3]
    split <;> norm_num
  · intro hrun
    obtain ⟨hdl, hstream, hatt, hrate, herate⟩ := h4 hrun
    exact ⟨hdl, hstream, by rw [h2, hrun], hatt, hrate, herate⟩

/-- Witness for C6: the initial system is reachable and satisfies the
open-handle bound. -/
theorem stream_lifecycle_invariant_witness : initSys.openHandles ≤ 1 :=
  (stream_lifecycle_invariant initSys Reachable.init).1
